import Mathlib

/-!
Shallow embedding of `src/unix/process.c` (early libuv child-process core):
the async spawn engine (`uv_spawn`), the sync spawn engine
(`uv_spawn_sync`), the termination reporter (`uv__chld` and the decode in
`uv_spawn_sync`), and signal delivery (`uv_process_kill`).

External collaborators declared in the missing headers (`uv.h`,
`internal.h`, libev) are modelled abstractly: `uv__close` removes a
descriptor from the set of descriptors this call opened, `uv_err_new`
records an errno, `uv__stream_open` / `ev_child_start` are trace events.
Machine integers are `Int`/`Nat`; raw wait statuses are `Nat` and the
`sys/wait.h` decoding macros are embedded with their glibc definitions.
-/

namespace Process

/-- errno value for EINVAL on Linux. -/
def EINVAL : Nat := 22
/-- errno value for EINTR on Linux. -/
def EINTR : Nat := 4
/-- errno value for ESRCH on Linux. -/
def ESRCH : Nat := 3
/-- Signal number of SIGKILL. -/
def SIGKILL : Int := 9
/-- Modelled from the spec: `UV_ENOBUFS` is the distinct artificial
buffer-overflow error code declared in the missing `uv.h`; only its
distinctness from the OS-errno channel matters, which the embedding keeps
by reporting artificial errors in a separate field. -/
def UV_ENOBUFS : Nat := 1001

/-! ## Wait-status decoding (`sys/wait.h` macros, glibc definitions) -/

/-- `WIFEXITED(status)`: low seven bits all zero. -/
def wIFEXITED (status : Nat) : Bool := status % 128 == 0

/-- `WEXITSTATUS(status)`: bits 8..15. -/
def wEXITSTATUS (status : Nat) : Nat := status / 256 % 256

/-- `WTERMSIG(status)`: low seven bits. -/
def wTERMSIG (status : Nat) : Nat := status % 128

/-- `WIFSIGNALED(status)`: `((signed char)(((status & 0x7f) + 1) >> 1)) > 0`,
equivalently the low seven bits are neither `0` (normal exit) nor `0x7f`
(stopped). -/
def wIFSIGNALED (status : Nat) : Bool :=
  status % 128 != 0 && status % 128 != 127

/-! ## Termination reporter, async side (`uv__chld`) -/

/-- The exit-status/termination-signal pair `uv__chld` passes to the
registered exit callback: both variables are initialised to `0` and each
is overwritten only when its `WIF...` condition holds. -/
def uv__chld_args (status : Nat) : Int × Int :=
  (if wIFEXITED status then (wEXITSTATUS status : Int) else 0,
   if wIFSIGNALED status then (wTERMSIG status : Int) else 0)

/-! ## Signal delivery (`uv_process_kill`) -/

/-- Outcome of the OS `kill(2)` call: `none` on success, `some errno` on
failure.  The OS behaviour is a parameter of the embedding. -/
def KillOracle := Int → Int → Option Nat

/-- Result of `uv_process_kill`: the returned int and the errno recorded
via `uv_err_new` (if any). -/
structure KillResult where
  retval : Int
  err : Option Nat
  deriving DecidableEq, Repr

/-- `uv_process_kill`: calls `kill(process->pid, signum)`; on a nonzero
result records the errno with `uv_err_new` and returns `-1`, otherwise
returns `0`. -/
def uv_process_kill (os : KillOracle) (pid signum : Int) : KillResult :=
  match os pid signum with
  | none => { retval := 0, err := none }
  | some e => { retval := -1, err := some e }

/-! ## Async spawn engine (`uv_spawn`)

The OS calls (`pipe(2)`, `fork(2)`, `poll(2)`) are parameters of the
embedding: `SpawnEnv` says which calls succeed.  The state `SpawnSt`
tracks the descriptors opened by this call (fresh numbers from a
counter), how many `pipe(2)` calls were issued, and a trace of the
observable steps of the parent path. -/

/-- Stream kind tag of a stdio binding target.  Modelled from the spec:
the handle-type enum lives in the missing `uv.h`; `process.c` only
compares the type against `UV_NAMED_PIPE`, so one non-pipe kind
suffices. -/
inductive StreamType
  | namedPipe
  | otherKind
  deriving DecidableEq, Repr

/-- The stdio bindings of a `uv_process_options_t`: `none` is a NULL
stream pointer (inherit), `some t` a stream object of kind `t`. -/
structure SpawnOpts where
  stdin_stream : Option StreamType
  stdout_stream : Option StreamType
  stderr_stream : Option StreamType
  deriving DecidableEq, Repr

/-- OS behaviour for one `uv_spawn` attempt: whether the k-th `pipe(2)`
call (0-based, in program order) succeeds and its errno on failure,
whether `fork(2)` succeeds, and how many interrupted `poll(2)` attempts
precede the POLLHUP report. -/
structure SpawnEnv where
  pipeOk : Nat → Bool
  pipeErrno : Nat → Nat
  forkOk : Bool
  forkErrno : Nat
  pollRetries : Nat

/-- Observable events of the parent path of `uv_spawn`. -/
inductive Ev
  | pipeCreated (r w : Nat)
  | closedFd (fd : Nat)
  | forkReturned
  | pollHupDone (attempts : Nat)
  | recordedPid
  | registeredChildWatcher
  | streamOpened (fd : Nat) (writable : Bool)
  deriving DecidableEq, Repr

/-- Descriptor bookkeeping for one call: descriptors opened by this call
and still open, the next fresh descriptor number, the number of
`pipe(2)` calls issued, and the event trace. -/
structure SpawnSt where
  openFds : List Nat
  nextFd : Nat
  pipeCalls : Nat
  trace : List Ev
  deriving DecidableEq, Repr

/-- State at the start of a call: nothing opened yet; fresh descriptors
are numbered from 3 (0..2 are the inherited stdio descriptors). -/
def initSpawnSt : SpawnSt :=
  { openFds := [], nextFd := 3, pipeCalls := 0, trace := [] }

/-- One `pipe(2)` call: on success returns the two fresh descriptors and
records them open; on failure returns the errno the environment
prescribes for this call. -/
def doPipe (env : SpawnEnv) (st : SpawnSt) : Except Nat (Nat × Nat) × SpawnSt :=
  if env.pipeOk st.pipeCalls then
    let r := st.nextFd
    let w := st.nextFd + 1
    (.ok (r, w),
     { st with openFds := st.openFds ++ [r, w], nextFd := st.nextFd + 2,
               pipeCalls := st.pipeCalls + 1, trace := st.trace ++ [.pipeCreated r w] })
  else
    (.error (env.pipeErrno st.pipeCalls), { st with pipeCalls := st.pipeCalls + 1 })

/-- `uv__close` (declared in the missing `internal.h`): closes a
descriptor; the embedding removes it from the open set of this call.
Closing a descriptor twice, or one represented by the `-1` sentinel
(absent pipe, modelled as `Option.none` at the call sites), is a no-op,
which the error label of `uv_spawn` relies on. -/
def closeFd (fd : Nat) (st : SpawnSt) : SpawnSt :=
  { st with openFds := st.openFds.filter (· ≠ fd), trace := st.trace ++ [.closedFd fd] }

/-- Close both ends of a pipe pair (read end first, as in the error
label of `uv_spawn`); a never-created pipe (`none`, the `{-1, -1}`
initialiser in the source) is a no-op. -/
def closePair : Option (Nat × Nat) → SpawnSt → SpawnSt
  | none, st => st
  | some (r, w), st => closeFd w (closeFd r st)

/-- Result of `uv_spawn`: the returned int, the errno recorded via
`uv_err_new` (if any), whether `fork(2)` was reached, whether
`process->pid` was assigned and the child watcher registered, and the
final bookkeeping state. -/
structure SpawnResult where
  retval : Int
  errRecorded : Option Nat
  forked : Bool
  pidAssigned : Bool
  watcherRegistered : Bool
  st : SpawnSt
  deriving DecidableEq, Repr

/-- The `error:` label of `uv_spawn`: record the errno, close all six
stdio pipe descriptors (absent pipes are the `-1` sentinel, a no-op),
return `-1`.  The synchronization pipe is not closed here; the only
path that reaches the label after creating it (fork failure) closes it
before jumping. -/
def spawnError (e : Nat) (p1 p2 p3 : Option (Nat × Nat)) (forked : Bool)
    (st : SpawnSt) : SpawnResult :=
  let st := closePair p1 st
  let st := closePair p2 st
  let st := closePair p3 st
  { retval := -1, errRecorded := some e, forked := forked,
    pidAssigned := false, watcherRegistered := false, st := st }

/-- One stdio binding of `uv_spawn`: NULL stream means no pipe; a
non-pipe stream kind fails with EINVAL; otherwise a pipe pair is
created (both ends are then marked close-on-exec). -/
def stdioStep (env : SpawnEnv) (sopt : Option StreamType) (st : SpawnSt) :
    Except (Nat × SpawnSt) (Option (Nat × Nat) × SpawnSt) :=
  match sopt with
  | none => .ok (none, st)
  | some t =>
    if t = StreamType.namedPipe then
      match doPipe env st with
      | (.ok p, st) => .ok (some p, st)
      | (.error e, st) => .error (e, st)
    else
      .error (EINVAL, st)

/-- The poll loop of the parent (`do { ... poll ... } while (status == -1
&& (errno == EINTR || errno == ENOMEM))`): given the number of
interrupted attempts, the total number of `poll(2)` calls issued before
POLLHUP is observed. -/
def pollHupAttempts : Nat → Nat
  | 0 => 1
  | n + 1 => pollHupAttempts n + 1

/-- `uv_spawn`: create a pipe pair per bound stdio stream (EINVAL on a
non-pipe stream kind), create the close-on-exec synchronization pipe,
fork, and in the parent: close the write end of the synchronization
pipe, poll its read end until POLLHUP (retrying interrupted waits),
close it, record the pid, register the child watcher, and attach the
parent end of each stdio pipe to its stream (closing the child end).
Only the parent branch is modelled; the child branch runs in another
process. -/
def uv_spawn (env : SpawnEnv) (opts : SpawnOpts) : SpawnResult :=
  match stdioStep env opts.stdin_stream initSpawnSt with
  | .error (e, st) => spawnError e none none none false st
  | .ok (p1, st) =>
  match stdioStep env opts.stdout_stream st with
  | .error (e, st) => spawnError e p1 none none false st
  | .ok (p2, st) =>
  match stdioStep env opts.stderr_stream st with
  | .error (e, st) => spawnError e p1 p2 none false st
  | .ok (p3, st) =>
  match doPipe env st with
  | (.error e, st) => spawnError e p1 p2 p3 false st
  | (.ok sp, st) =>
  if env.forkOk then
    let st := { st with trace := st.trace ++ [Ev.forkReturned] }
    let st := closeFd sp.2 st
    let st := { st with trace := st.trace ++ [Ev.pollHupDone (pollHupAttempts env.pollRetries)] }
    let st := closeFd sp.1 st
    let st := closeFd sp.2 st
    let st := { st with trace := st.trace ++ [Ev.recordedPid, Ev.registeredChildWatcher] }
    let st := match p1 with
      | none => st
      | some (r, w) =>
        let st := closeFd r st
        { st with trace := st.trace ++ [Ev.streamOpened w true] }
    let st := match p2 with
      | none => st
      | some (r, w) =>
        let st := closeFd w st
        { st with trace := st.trace ++ [Ev.streamOpened r false] }
    let st := match p3 with
      | none => st
      | some (r, w) =>
        let st := closeFd w st
        { st with trace := st.trace ++ [Ev.streamOpened r false] }
    { retval := 0, errRecorded := none, forked := true,
      pidAssigned := true, watcherRegistered := true, st := st }
  else
    let st := { st with trace := st.trace ++ [Ev.forkReturned] }
    let st := closeFd sp.1 st
    let st := closeFd sp.2 st
    spawnError env.forkErrno p1 p2 p3 true st

/-- Number of stdio pipe pairs `uv_spawn` creates for a request whose
bindings are all pipe-backed. -/
def numStdioPipes (opts : SpawnOpts) : Nat :=
  (if opts.stdin_stream.isSome then 1 else 0)
  + (if opts.stdout_stream.isSome then 1 else 0)
  + (if opts.stderr_stream.isSome then 1 else 0)

/-- Descriptor number of the write end of the synchronization pipe on
the all-pipes-succeed path. -/
def signalWriteFd (opts : SpawnOpts) : Nat :=
  4 + 2 * numStdioPipes opts

/-- A `SpawnEnv` in which every OS call succeeds at once. -/
def okSpawnEnv : SpawnEnv :=
  { pipeOk := fun _ => true, pipeErrno := fun _ => 0,
    forkOk := true, forkErrno := 0, pollRetries := 0 }

/-! ## Sync spawn engine (`uv_spawn_sync`) -/

/-- The `uv_spawn_sync_t` record (input and output halves).  Modelled
from the spec where `uv.h` is missing: buffer pointers are kept only as
presence flags (the loop tests them against NULL), buffer capacities
and cursors are integers.  Field names follow the source. -/
structure SyncSpawn where
  stdin_buf : Bool
  stdout_buf : Bool
  stderr_buf : Bool
  combine : Bool
  stdin_size : Int
  stdin_written : Int
  stdout_size : Int
  stdout_read : Int
  stderr_size : Int
  stderr_read : Int
  timeout : Int
  pid : Int
  exit_code : Int
  exit_signal : Int
  exit_timeout : Bool
  deriving DecidableEq, Repr

/-- The result-field initialisation at the top of `uv_spawn_sync`
(lines 316-321): pid, exit code and exit signal start at `-1`, the
timed-out flag cleared, both read counters zero.  `stdin_written` is
not initialised there. -/
def syncInit (s : SyncSpawn) : SyncSpawn :=
  { s with pid := -1, exit_code := -1, exit_signal := -1,
           exit_timeout := false, stdout_read := 0, stderr_read := 0 }

/-- OS behaviour for one `uv_spawn_sync` attempt up to the loop:
which `pipe(2)` calls succeed, whether `fork(2)` and `sigaction(2)`
succeed. -/
structure SyncEnv where
  pipeOk : Nat → Bool
  pipeErrno : Nat → Nat
  forkOk : Bool
  forkErrno : Nat
  childPid : Int
  sigactionOk : Bool
  sigactionErrno : Nat

/-- Parent-held pipe endpoints during the multiplexing loop: the write
end of the stdin-feed pipe, the read ends of the capture pipes, and
both ends of the SIGCHLD self-pipe.  A field is meaningful only when
the corresponding buffer is supplied. -/
structure SyncFds where
  stdin_w : Nat
  stdout_r : Nat
  stderr_r : Nat
  sigchld_r : Nat
  sigchld_w : Nat
  deriving DecidableEq, Repr

/-- The descriptors the parent still holds inside the loop, in the
order every exit path of the loop closes them: both self-pipe ends,
then stdin write end, stdout read end, stderr read end (each when its
buffer is supplied). -/
def heldFds (s : SyncSpawn) (f : SyncFds) : List Nat :=
  [f.sigchld_r, f.sigchld_w]
  ++ (if s.stdin_buf then [f.stdin_w] else [])
  ++ (if s.stdout_buf then [f.stdout_r] else [])
  ++ (if s.stderr_buf then [f.stderr_r] else [])

/-- The read wait set built by `FD_ZERO`/`FD_SET` at the top of every
loop iteration: the capture read ends whenever their buffers are
supplied (no end-of-stream tracking), plus the self-pipe read end. -/
def buildReadFds (s : SyncSpawn) (f : SyncFds) : List Nat :=
  (if s.stdout_buf then [f.stdout_r] else [])
  ++ (if s.stderr_buf then [f.stderr_r] else [])
  ++ [f.sigchld_r]

/-- The write wait set built at the top of every loop iteration: the
stdin write end whenever an input buffer is supplied. -/
def buildWriteFds (s : SyncSpawn) (f : SyncFds) : List Nat :=
  if s.stdin_buf then [f.stdin_w] else []

/-- Outcome of the `select(2)` call of one iteration: interrupted,
failed with an errno, timed out (zero ready descriptors), or ready with
the returned read/write sets. -/
inductive SelectR
  | eintr
  | fail (e : Nat)
  | timeout
  | ready (rd wr : List Nat)
  deriving DecidableEq, Repr

/-- Outcome of a `write(2)` call: `ok n` bytes accepted, or `-1` with
the given errno. -/
inductive WriteR
  | ok (n : Nat)
  | failErr (e : Nat)
  deriving DecidableEq, Repr

/-- Outcome of a `read(2)` call: `ok n` bytes read (`0` is
end-of-stream), or `-1` with the given errno. -/
inductive ReadR
  | ok (n : Nat)
  | failErr (e : Nat)
  deriving DecidableEq, Repr

/-- OS behaviour for one iteration of the multiplexing loop. -/
structure IterOracle where
  sel : SelectR
  stdinW : WriteR
  stdoutR : ReadR
  stderrR : ReadR
  waitR : Except Nat Nat
  deriving Repr

/-- How one pass of the multiplexing loop returned from
`uv_spawn_sync`: the returned int, the final record, the descriptors
closed on the way out, the signal sent to the child (if any), the
artificial error recorded via `uv_err_new_artificial` (if any), the
OS errno recorded via `uv_err_new` (if any), and how many `write(2)`
calls the pass issued. -/
structure SyncExit where
  retval : Int
  spawn : SyncSpawn
  closed : List Nat
  killed : Option Int
  artErr : Option Nat
  osErr : Option Nat
  writesIssued : Nat
  deriving DecidableEq, Repr

/-- Result of one pass of the multiplexing loop: continue with an
updated record, or return from the call. -/
inductive IterOut
  | next (s : SyncSpawn) (writesIssued : Nat)
  | stop (e : SyncExit)
  deriving DecidableEq, Repr

/-- The `error:` label of `uv_spawn_sync` as reached from inside the
loop: close every held endpoint, SIGKILL the child, return `-1`. -/
def syncErrorExit (s : SyncSpawn) (f : SyncFds) (osErr artErr : Option Nat)
    (w : Nat) : SyncExit :=
  { retval := -1, spawn := s, closed := heldFds s f, killed := some SIGKILL,
    artErr := artErr, osErr := osErr, writesIssued := w }

/-- The timeout branch (`select` returned 0): close every held
endpoint, SIGKILL the child, set the timed-out flag, return `0`. -/
def syncTimeoutExit (s : SyncSpawn) (f : SyncFds) : SyncExit :=
  { retval := 0, spawn := { s with exit_timeout := true },
    closed := heldFds s f, killed := some SIGKILL,
    artErr := none, osErr := none, writesIssued := 0 }

/-- The wait-status decode at the child-exited exit of the loop
(lines 541-547): each result field is overwritten only when its
condition holds, otherwise it keeps its earlier value. -/
def decodeStatus (s : SyncSpawn) (status : Nat) : SyncSpawn :=
  let s := if wIFEXITED status then { s with exit_code := (wEXITSTATUS status : Int) } else s
  if wIFSIGNALED status then { s with exit_signal := (wTERMSIG status : Int) } else s

/-- The stdin feed step of one pass (lines 471-480): when an input
buffer is supplied, the stdin write end is in the ready write set and
unsent input remains, issue exactly one `write(2)`: on `-1` with errno
other than EINTR go to the error label, otherwise add the returned
value to `stdin_written` (also when that value is the `-1` of an
interrupted write). -/
def stepStdin (s : SyncSpawn) (f : SyncFds) (wr : List Nat) (w : WriteR) :
    (SyncSpawn × Nat) ⊕ SyncExit :=
  if s.stdin_buf = true ∧ f.stdin_w ∈ wr ∧ s.stdin_written < s.stdin_size then
    match w with
    | .ok n => .inl ({ s with stdin_written := s.stdin_written + (n : Int) }, 1)
    | .failErr e =>
      if e ≠ EINTR then .inr (syncErrorExit s f (some e) none 1)
      else .inl ({ s with stdin_written := s.stdin_written + (-1 : Int) }, 1)
  else .inl (s, 0)

/-- The stdout capture step of one pass (lines 482-498): when a capture
buffer is supplied and its read end is in the ready read set, first
check for buffer overflow (no remaining capacity goes to the error
label with the artificial `UV_ENOBUFS`), then `read(2)` into the
remaining capacity, a failure going to the error label, and advance the
read cursor by the byte count (zero at end-of-stream). -/
def stepStdout (s : SyncSpawn) (f : SyncFds) (rd : List Nat) (r : ReadR)
    (w : Nat) : SyncSpawn ⊕ SyncExit :=
  if s.stdout_buf = true ∧ f.stdout_r ∈ rd then
    if s.stdout_size - s.stdout_read ≤ 0 then
      .inr (syncErrorExit s f none (some UV_ENOBUFS) w)
    else
      match r with
      | .ok n => .inl { s with stdout_read := s.stdout_read + (n : Int) }
      | .failErr e => .inr (syncErrorExit s f (some e) none w)
  else .inl s

/-- The stderr capture step of one pass (lines 500-514), identical in
shape to the stdout capture step. -/
def stepStderr (s : SyncSpawn) (f : SyncFds) (rd : List Nat) (r : ReadR)
    (w : Nat) : SyncSpawn ⊕ SyncExit :=
  if s.stderr_buf = true ∧ f.stderr_r ∈ rd then
    if s.stderr_size - s.stderr_read ≤ 0 then
      .inr (syncErrorExit s f none (some UV_ENOBUFS) w)
    else
      match r with
      | .ok n => .inl { s with stderr_read := s.stderr_read + (n : Int) }
      | .failErr e => .inr (syncErrorExit s f (some e) none w)
  else .inl s

/-- The self-pipe step of one pass (lines 516-550): when the self-pipe
read end is ready the child has exited; `wait(2)` for the real status
(a failure going to the error label), close every held endpoint, decode
the status, return `0`.  `none` when the self-pipe is not ready. -/
def stepSigchld (s : SyncSpawn) (f : SyncFds) (rd : List Nat)
    (waitR : Except Nat Nat) (w : Nat) : Option SyncExit :=
  if f.sigchld_r ∈ rd then
    match waitR with
    | .error e => some (syncErrorExit s f (some e) none w)
    | .ok status =>
      some { retval := 0, spawn := decodeStatus s status,
             closed := heldFds s f, killed := none,
             artErr := none, osErr := none, writesIssued := w }
  else none

/-- One pass of the multiplexing loop of `uv_spawn_sync`, in source
order: `select`; on EINTR continue, on failure go to the error label,
on zero readiness take the timeout branch; then the stdin feed step,
the stdout capture step, the stderr capture step, and the self-pipe
(child exited) step. -/
def iterate (s : SyncSpawn) (f : SyncFds) (o : IterOracle) : IterOut :=
  match o.sel with
  | .eintr => .next s 0
  | .fail e => .stop (syncErrorExit s f (some e) none 0)
  | .timeout => .stop (syncTimeoutExit s f)
  | .ready rd wr =>
    match stepStdin s f wr o.stdinW with
    | .inr ex => .stop ex
    | .inl (s, w) =>
    match stepStdout s f rd o.stdoutR w with
    | .inr ex => .stop ex
    | .inl s =>
    match stepStderr s f rd o.stderrR w with
    | .inr ex => .stop ex
    | .inl s =>
    match stepSigchld s f rd o.waitR w with
    | some ex => .stop ex
    | none => .next s w

/-- The stdout read cursor of the record a pass ended with. -/
def readCursor : IterOut → Int
  | .next s _ => s.stdout_read
  | .stop ex => ex.spawn.stdout_read

/-- The stderr read cursor of the record a pass ended with. -/
def errCursor : IterOut → Int
  | .next s _ => s.stderr_read
  | .stop ex => ex.spawn.stderr_read

/-- The multiplexing loop: run passes against a list of per-iteration
oracles until one pass returns; `none` if the oracle list is exhausted
with the loop still running. -/
def runLoop : List IterOracle → SyncSpawn → SyncFds → Option SyncExit
  | [], _, _ => none
  | o :: rest, s, f =>
    match iterate s f o with
    | .next s' _ => runLoop rest s' f
    | .stop ex => some ex

/-- The pipe-creation environment of a sync attempt, reusing the
`doPipe` embedding. -/
def SyncEnv.pipeEnv (env : SyncEnv) : SpawnEnv :=
  { pipeOk := env.pipeOk, pipeErrno := env.pipeErrno,
    forkOk := env.forkOk, forkErrno := env.forkErrno, pollRetries := 0 }

/-- A conditional `pipe(2)` call (`if (spawn->..._buf && pipe(...))`):
no pipe when the buffer is absent. -/
def optPipe (pe : SpawnEnv) (cond : Bool) (st : SpawnSt) :
    Except (Nat × SpawnSt) (Option (Nat × Nat) × SpawnSt) :=
  if cond then
    match doPipe pe st with
    | (.ok p, st) => .ok (some p, st)
    | (.error e, st) => .error (e, st)
  else .ok (none, st)

/-- How `uv_spawn_sync` left its prologue (everything before the
multiplexing loop): an early `return -1` (records the errno and closes
nothing), the `error:` label (closes the held endpoints and SIGKILLs
the child), or entry into the loop with the held endpoints. -/
inductive SyncProlog
  | earlyErr (e : Nat) (st : SpawnSt)
  | errLabel (e : Nat) (st : SpawnSt) (killed : Option Int)
  | loopEntry (s : SyncSpawn) (f : SyncFds) (st : SpawnSt)
  deriving DecidableEq, Repr

/-- Descriptors opened by this call and still open at the point the
prologue ended. -/
def SyncProlog.fdsOpen : SyncProlog → List Nat
  | .earlyErr _ st => st.openFds
  | .errLabel _ st _ => st.openFds
  | .loopEntry _ _ st => st.openFds

/-- The errno of an early `return -1`, if the prologue ended that way. -/
def SyncProlog.earlyErrno : SyncProlog → Option Nat
  | .earlyErr e _ => some e
  | _ => none

/-- Whether the prologue reached the multiplexing loop. -/
def SyncProlog.isLoopEntry : SyncProlog → Bool
  | .loopEntry _ _ _ => true
  | _ => false

/-- The prologue of `uv_spawn_sync`, in source order: initialise the
result fields; create the stdin/stdout/stderr pipes (each only when its
buffer is supplied) and the SIGCHLD self-pipe, each failure returning
`-1` at once (closing nothing); fork (failure returns `-1`, closing
nothing); in the parent close the child-side end of each created stdio
pipe; install the SIGCHLD handler, a failure going to the `error:`
label; then enter the loop. -/
def uv_spawn_sync_prologue (env : SyncEnv) (s0 : SyncSpawn) : SyncProlog :=
  let s := syncInit s0
  let pe := env.pipeEnv
  match optPipe pe s.stdin_buf initSpawnSt with
  | .error (e, st) => .earlyErr e st
  | .ok (pin, st) =>
  match optPipe pe s.stdout_buf st with
  | .error (e, st) => .earlyErr e st
  | .ok (pout, st) =>
  match optPipe pe s.stderr_buf st with
  | .error (e, st) => .earlyErr e st
  | .ok (perr, st) =>
  match doPipe pe st with
  | (.error e, st) => .earlyErr e st
  | (.ok sc, st) =>
  if env.forkOk then
    let s := { s with pid := env.childPid }
    let st := if s.stdout_buf then closeFd (pout.getD (0, 0)).2 st else st
    let st := if s.stderr_buf then closeFd (perr.getD (0, 0)).2 st else st
    let st := if s.stdin_buf then closeFd (pin.getD (0, 0)).1 st else st
    let f : SyncFds :=
      { stdin_w := (pin.getD (0, 0)).2, stdout_r := (pout.getD (0, 0)).1,
        stderr_r := (perr.getD (0, 0)).1, sigchld_r := sc.1, sigchld_w := sc.2 }
    if env.sigactionOk then
      .loopEntry s f st
    else
      let st := closeFd f.sigchld_r st
      let st := closeFd f.sigchld_w st
      let st := if s.stdin_buf then closeFd f.stdin_w st else st
      let st := if s.stdout_buf then closeFd f.stdout_r st else st
      let st := if s.stderr_buf then closeFd f.stderr_r st else st
      .errLabel env.sigactionErrno st (some SIGKILL)
  else
    .earlyErr env.forkErrno st

/-- What a standard descriptor of the child is bound to after the
child-side stdio setup. -/
inductive ChildFd
  | inherited
  | stdinPipeRead
  | stdoutPipeWrite
  | stderrPipeWrite
  deriving DecidableEq, Repr

/-- The three standard descriptors of the child after its stdio setup,
and whether the `assert(!spawn->stderr_buf)` in the combine branch
fired. -/
structure ChildStdio where
  fd0 : ChildFd
  fd1 : ChildFd
  fd2 : ChildFd
  assertFailed : Bool
  deriving DecidableEq, Repr

/-- The child branch of `uv_spawn_sync` (lines 348-367) before
`execvp`: rebind stdin to the stdin pipe when an input buffer is
supplied; rebind stdout to the stdout pipe when a capture buffer is
supplied, and inside that branch also rebind stderr to the stdout pipe
when `combine` is set (asserting no separate stderr buffer); rebind
stderr to the stderr pipe when a stderr capture buffer is supplied. -/
def syncChildSetup (s : SyncSpawn) : ChildStdio :=
  let c : ChildStdio :=
    { fd0 := .inherited, fd1 := .inherited, fd2 := .inherited, assertFailed := false }
  let c := if s.stdin_buf then { c with fd0 := .stdinPipeRead } else c
  let c :=
    if s.stdout_buf then
      let c := { c with fd1 := .stdoutPipeWrite }
      if s.combine then
        { c with fd2 := .stdoutPipeWrite, assertFailed := s.stderr_buf }
      else c
    else c
  if s.stderr_buf then { c with fd2 := .stderrPipeWrite } else c

/-! ## Concrete instances shared by several theorems -/

/-- A concrete sync spawn request: stdin feed and stdout capture, 10
input bytes of which 5 are sent, a 16-byte stdout buffer holding 3
bytes, a 1000 ms timeout. -/
def sampleSpawn : SyncSpawn :=
  { stdin_buf := true, stdout_buf := true, stderr_buf := false, combine := false,
    stdin_size := 10, stdin_written := 5, stdout_size := 16, stdout_read := 3,
    stderr_size := 4, stderr_read := 0, timeout := 1000, pid := 100,
    exit_code := -1, exit_signal := -1, exit_timeout := false }

/-- Concrete held endpoints matching `sampleSpawn`: stdin write end 4,
stdout read end 5, stderr read end 6, self-pipe ends 7 and 8. -/
def sampleFds : SyncFds :=
  { stdin_w := 4, stdout_r := 5, stderr_r := 6, sigchld_r := 7, sigchld_w := 8 }

/-- A `SyncEnv` in which every OS call succeeds. -/
def okSyncEnv : SyncEnv :=
  { pipeOk := fun _ => true, pipeErrno := fun _ => 0, forkOk := true,
    forkErrno := 0, childPid := 100, sigactionOk := true, sigactionErrno := 0 }

/-! ## Claims -/

/-- C1, counterexample.  For raw wait status 9 — a child killed by
signal 9 — the sync engine result record holds exit code `-1`, not the
zero the claim says the field defaults to: `uv_spawn_sync` initialises
`exit_code` to `-1` and the decode leaves it untouched when the child
did not exit normally. -/
theorem C1_counterexample :
    wIFEXITED 9 = false ∧
    (decodeStatus (syncInit sampleSpawn) 9).exit_code = -1 ∧
    (decodeStatus (syncInit sampleSpawn) 9).exit_code ≠ 0 := by decide

/-- C1, amended: in both engines the exit code is set only if the
process exited normally and the termination signal only if it was
killed by a signal; when its condition does not hold the field keeps
its default, which is `0` in the async callback delivery (`uv__chld`)
but `-1` in the sync engine result record. -/
theorem C1_decode_defaults (status : Nat) (s : SyncSpawn) :
    (wIFEXITED status = true →
      (uv__chld_args status).1 = (wEXITSTATUS status : Int) ∧
      (decodeStatus (syncInit s) status).exit_code = (wEXITSTATUS status : Int)) ∧
    (wIFEXITED status = false →
      (uv__chld_args status).1 = 0 ∧
      (decodeStatus (syncInit s) status).exit_code = -1) ∧
    (wIFSIGNALED status = true →
      (uv__chld_args status).2 = (wTERMSIG status : Int) ∧
      (decodeStatus (syncInit s) status).exit_signal = (wTERMSIG status : Int)) ∧
    (wIFSIGNALED status = false →
      (uv__chld_args status).2 = 0 ∧
      (decodeStatus (syncInit s) status).exit_signal = -1) := by
  unfold uv__chld_args decodeStatus syncInit
  by_cases he : wIFEXITED status <;> by_cases hs : wIFSIGNALED status <;>
    simp [he, hs]

/-- C1, witness for the amended theorem at status 9 (killed by signal
9): the async pair reports signal 9, the sync record keeps exit code
`-1`. -/
theorem C1_decode_defaults_witness :
    (uv__chld_args 9).2 = (wTERMSIG 9 : Int) ∧
    (decodeStatus (syncInit sampleSpawn) 9).exit_code = -1 :=
  ⟨((C1_decode_defaults 9 sampleSpawn).2.2.1 (by decide)).1,
   ((C1_decode_defaults 9 sampleSpawn).2.1 (by decide)).2⟩

/-- OS behaviour in which the second `pipe(2)` call fails with
errno 24 (per-process descriptor limit) for the sync engine. -/
def c2SyncEnv : SyncEnv :=
  { pipeOk := fun k => k == 0, pipeErrno := fun _ => 24, forkOk := true,
    forkErrno := 0, childPid := 100, sigactionOk := true, sigactionErrno := 0 }

/-- The same OS behaviour for the async engine. -/
def c2SpawnEnv : SpawnEnv :=
  { pipeOk := fun k => k == 0, pipeErrno := fun _ => 24, forkOk := true,
    forkErrno := 0, pollRetries := 0 }

/-- An async request binding stdin and stdout to pipe streams. -/
def c2Opts : SpawnOpts :=
  { stdin_stream := some .namedPipe, stdout_stream := some .namedPipe,
    stderr_stream := none }

/-- C2.  When `sampleSpawn` (stdin feed and stdout capture both
requested) hits a failure of its second `pipe(2)` call, `uv_spawn_sync`
returns `-1` with the OS errno recorded but leaves both descriptors of
the already-created stdin pipe (numbers 3 and 4 here) open — the early
`return -1` statements before the fork close nothing.  `uv_spawn` under
the same OS behaviour and the analogous request closes every descriptor
it opened before returning `-1`, so the leak is on the sync side
only. -/
theorem C2_sync_prologue_leaks_fds :
    ((uv_spawn_sync_prologue c2SyncEnv sampleSpawn).earlyErrno = some 24 ∧
     (uv_spawn_sync_prologue c2SyncEnv sampleSpawn).fdsOpen = [3, 4]) ∧
    ((uv_spawn c2SpawnEnv c2Opts).retval = -1 ∧
     (uv_spawn c2SpawnEnv c2Opts).errRecorded = some 24 ∧
     (uv_spawn c2SpawnEnv c2Opts).st.openFds = []) := by decide

/-- Ready write set reporting the stdin feed end (4) writable, with the
write failing as interrupted (EINTR). -/
def c3Oracle : IterOracle :=
  { sel := .ready [] [4], stdinW := .failErr EINTR, stdoutR := .ok 0,
    stderrR := .ok 0, waitR := .ok 0 }

/-- C3.  In an iteration where the stdin pipe is writable and unsent
input remains (5 of 10 bytes sent) and the single `write(2)` call is
interrupted (returns `-1` with errno EINTR), the loop does not abort —
but instead of leaving the send cursor unchanged it adds the returned
`-1` to it, moving `stdin_written` from 5 back to 4. -/
theorem C3_eintr_write_decrements_cursor :
    sampleSpawn.stdin_written = 5 ∧
    sampleSpawn.stdin_written < sampleSpawn.stdin_size ∧
    iterate sampleSpawn sampleFds c3Oracle =
      .next { sampleSpawn with stdin_written := 4 } 1 := by decide

/-- Ready read set reporting the stdout capture end (5), whose
`read(2)` returns 0 bytes: end-of-stream. -/
def c4Oracle : IterOracle :=
  { sel := .ready [5] [], stdinW := .ok 0, stdoutR := .ok 0,
    stderrR := .ok 0, waitR := .ok 0 }

/-- C4, counterexample.  After the stdout capture pipe reports
end-of-stream (a zero-byte read) the iteration continues with an
unchanged record, and the wait set built for the next iteration still
contains that read end: `FD_SET(stdout_pipe[0], ...)` is re-issued
whenever `spawn->stdout_buf` is non-NULL, so the endpoint is never
removed from the wait set. -/
theorem C4_counterexample :
    iterate sampleSpawn sampleFds c4Oracle = .next sampleSpawn 0 ∧
    sampleFds.stdout_r ∈ buildReadFds sampleSpawn sampleFds := by decide

/-- C4, amended: a zero-byte read is not an error and leaves the
record unchanged, but the endpoint is not removed from the wait set —
every subsequent iteration re-adds the capture read end as long as its
buffer is supplied; the loop stays ready to select on it until child
exit, timeout or error ends the call. -/
theorem C4_eof_endpoint_stays_in_wait_set (s : SyncSpawn) (f : SyncFds)
    (o : IterOracle) (rd : List Nat)
    (hbuf : s.stdout_buf = true)
    (hsel : o.sel = .ready rd [])
    (hin : f.stdout_r ∈ rd)
    (hroom : 0 < s.stdout_size - s.stdout_read)
    (heof : o.stdoutR = .ok 0)
    (hne : s.stderr_buf = false)
    (hni : s.stdin_buf = false)
    (hsig : f.sigchld_r ∉ rd) :
    iterate s f o = .next s 0 ∧
    (∀ s' : SyncSpawn, s'.stdout_buf = true → f.stdout_r ∈ buildReadFds s' f) := by
  constructor
  · cases s
    simp_all [iterate, stepStdin, stepStdout, stepStderr, stepSigchld,
      not_le.mpr hroom]
  · intro s' h
    simp [buildReadFds, h]

/-- The `sampleSpawn` request with the stdin feed dropped, used to
instantiate the amended C4 theorem. -/
def c4Spawn : SyncSpawn := { sampleSpawn with stdin_buf := false }

/-- C4, witness for the amended theorem: concrete end-of-stream
iteration on `c4Spawn`. -/
theorem C4_eof_endpoint_stays_in_wait_set_witness :
    iterate c4Spawn sampleFds c4Oracle = .next c4Spawn 0 ∧
    sampleFds.stdout_r ∈ buildReadFds c4Spawn sampleFds :=
  ⟨(C4_eof_endpoint_stays_in_wait_set c4Spawn sampleFds c4Oracle [5]
      (by decide) (by decide) (by decide) (by decide) (by decide) (by decide)
      (by decide) (by decide)).1,
   (C4_eof_endpoint_stays_in_wait_set c4Spawn sampleFds c4Oracle [5]
      (by decide) (by decide) (by decide) (by decide) (by decide) (by decide)
      (by decide) (by decide)).2 c4Spawn (by decide)⟩

/-- An async request whose stdin binds a pipe stream and whose stdout
binds a stream of a non-pipe kind. -/
def c5Opts : SpawnOpts :=
  { stdin_stream := some .namedPipe, stdout_stream := some .otherKind,
    stderr_stream := none }

/-- C5, counterexample.  With every OS call succeeding, a request whose
stdin binds a valid pipe stream and whose stdout binds a non-pipe
stream is rejected with EINVAL and no child is created — but only
after a `pipe(2)` call has already been issued for the stdin binding,
so the rejection is not detected before any OS resource is
allocated. -/
theorem C5_counterexample :
    (uv_spawn okSpawnEnv c5Opts).errRecorded = some EINVAL ∧
    (uv_spawn okSpawnEnv c5Opts).retval = -1 ∧
    (uv_spawn okSpawnEnv c5Opts).forked = false ∧
    (uv_spawn okSpawnEnv c5Opts).st.pipeCalls = 1 ∧
    Ev.pipeCreated 3 4 ∈ (uv_spawn okSpawnEnv c5Opts).st.trace := by decide

/-- C5, amended: a request with a stdio binding of a non-pipe stream
kind fails with EINVAL, `fork(2)` is never reached (no process
identifier is consumed), and any pipes already created for earlier
valid bindings are closed before the call returns, so no descriptor
remains open; but the rejection of a later binding may come after
pipes were allocated for earlier ones, not before any OS resource at
all. -/
theorem C5_nonpipe_einval_no_child (env : SpawnEnv) (opts : SpawnOpts)
    (hp : ∀ k, env.pipeOk k = true)
    (hinv : opts.stdin_stream = some .otherKind ∨
            opts.stdout_stream = some .otherKind ∨
            opts.stderr_stream = some .otherKind) :
    (uv_spawn env opts).retval = -1 ∧
    (uv_spawn env opts).errRecorded = some EINVAL ∧
    (uv_spawn env opts).forked = false ∧
    (uv_spawn env opts).pidAssigned = false ∧
    (uv_spawn env opts).st.openFds = [] := by
  obtain ⟨s1, s2, s3⟩ := opts
  have h0 := hp 0
  have h1 := hp 1
  rcases s1 with _ | t1 <;> try cases t1
  all_goals (rcases s2 with _ | t2 <;> try cases t2)
  all_goals (rcases s3 with _ | t3 <;> try cases t3)
  all_goals simp_all [uv_spawn, stdioStep, doPipe, initSpawnSt, spawnError,
    closePair, closeFd, EINVAL]

/-- C5, witness for the amended theorem at `c5Opts` under an
all-success OS. -/
theorem C5_nonpipe_einval_no_child_witness :
    (uv_spawn okSpawnEnv c5Opts).retval = -1 ∧
    (uv_spawn okSpawnEnv c5Opts).errRecorded = some EINVAL ∧
    (uv_spawn okSpawnEnv c5Opts).forked = false ∧
    (uv_spawn okSpawnEnv c5Opts).pidAssigned = false ∧
    (uv_spawn okSpawnEnv c5Opts).st.openFds = [] :=
  C5_nonpipe_einval_no_child okSpawnEnv c5Opts (fun _ => rfl)
    (Or.inr (Or.inl rfl))

/-- C6.  When the readiness wait of an iteration reports zero ready
descriptors (the time budget is exhausted), the call returns `0` —
success, with no OS or artificial error recorded — after closing every
pipe endpoint it holds (both self-pipe ends and each active data
endpoint), forcibly killing the child with SIGKILL, and setting the
timed-out flag in the result record. -/
theorem C6_timeout_is_success (s : SyncSpawn) (f : SyncFds)
    (o : IterOracle) (rest : List IterOracle)
    (h : o.sel = .timeout) :
    ∃ ex, runLoop (o :: rest) s f = some ex ∧
      ex.retval = 0 ∧ ex.osErr = none ∧ ex.artErr = none ∧
      ex.spawn.exit_timeout = true ∧
      ex.killed = some SIGKILL ∧
      ex.closed = heldFds s f ∧
      f.sigchld_r ∈ ex.closed ∧ f.sigchld_w ∈ ex.closed ∧
      (s.stdin_buf = true → f.stdin_w ∈ ex.closed) ∧
      (s.stdout_buf = true → f.stdout_r ∈ ex.closed) ∧
      (s.stderr_buf = true → f.stderr_r ∈ ex.closed) := by
  refine ⟨syncTimeoutExit s f, by simp [runLoop, iterate, h], rfl, rfl, rfl,
    rfl, rfl, rfl, ?_, ?_, ?_, ?_, ?_⟩
  · simp [syncTimeoutExit, heldFds]
  · simp [syncTimeoutExit, heldFds]
  · intro hb; simp [syncTimeoutExit, heldFds, hb]
  · intro hb; simp [syncTimeoutExit, heldFds, hb]
  · intro hb; simp [syncTimeoutExit, heldFds, hb]

/-- A first iteration whose `select(2)` reports zero ready
descriptors. -/
def c6Oracle : IterOracle :=
  { sel := .timeout, stdinW := .ok 0, stdoutR := .ok 0,
    stderrR := .ok 0, waitR := .ok 0 }

/-- C6, witness: the timeout outcome at `sampleSpawn`. -/
theorem C6_timeout_is_success_witness :
    ∃ ex, runLoop [c6Oracle] sampleSpawn sampleFds = some ex ∧
      ex.retval = 0 ∧ ex.osErr = none ∧ ex.artErr = none ∧
      ex.spawn.exit_timeout = true ∧
      ex.killed = some SIGKILL ∧
      ex.closed = heldFds sampleSpawn sampleFds ∧
      sampleFds.sigchld_r ∈ ex.closed ∧ sampleFds.sigchld_w ∈ ex.closed ∧
      (sampleSpawn.stdin_buf = true → sampleFds.stdin_w ∈ ex.closed) ∧
      (sampleSpawn.stdout_buf = true → sampleFds.stdout_r ∈ ex.closed) ∧
      (sampleSpawn.stderr_buf = true → sampleFds.stderr_r ∈ ex.closed) :=
  C6_timeout_is_success sampleSpawn sampleFds c6Oracle [] rfl

/-- The wait-status decode never touches the stdout read counter. -/
theorem decodeStatus_stdout_read (s : SyncSpawn) (status : Nat) :
    (decodeStatus s status).stdout_read = s.stdout_read := by
  simp only [decodeStatus]
  split <;> split <;> rfl

/-- The wait-status decode never touches the stderr read counter. -/
theorem decodeStatus_stderr_read (s : SyncSpawn) (status : Nat) :
    (decodeStatus s status).stderr_read = s.stderr_read := by
  simp only [decodeStatus]
  split <;> split <;> rfl

/-- When the `write(2)` of the stdin feed step is not a fatal error
(either it accepts bytes or is interrupted), the step continues into
the rest of the pass, leaving the capture bookkeeping of both streams
and the held endpoints unchanged. -/
theorem stepStdin_total (s : SyncSpawn) (f : SyncFds) (wr : List Nat) (w : WriteR)
    (hsafe : ∀ e, w = .failErr e → e = EINTR) :
    ∃ s1 w1, stepStdin s f wr w = .inl (s1, w1) ∧
      s1.stdout_buf = s.stdout_buf ∧ s1.stdout_size = s.stdout_size ∧
      s1.stdout_read = s.stdout_read ∧ s1.stderr_buf = s.stderr_buf ∧
      s1.stderr_size = s.stderr_size ∧ s1.stderr_read = s.stderr_read ∧
      heldFds s1 f = heldFds s f := by
  unfold stepStdin
  split
  · match w with
    | .ok n => exact ⟨_, _, rfl, rfl, rfl, rfl, rfl, rfl, rfl, rfl⟩
    | .failErr e =>
      have he : e = EINTR := hsafe e rfl
      subst he
      refine ⟨{ s with stdin_written := s.stdin_written + (-1 : Int) }, 1, ?_,
        rfl, rfl, rfl, rfl, rfl, rfl, rfl⟩
      simp
  · exact ⟨s, 0, rfl, rfl, rfl, rfl, rfl, rfl, rfl, rfl⟩

/-- The stderr capture step never touches the stdout read counter,
whether it continues or exits. -/
theorem stepStderr_stdout_read (s : SyncSpawn) (f : SyncFds) (rd : List Nat)
    (r : ReadR) (w : Nat) :
    (∀ s3, stepStderr s f rd r w = Sum.inl s3 → s3.stdout_read = s.stdout_read) ∧
    (∀ ex, stepStderr s f rd r w = Sum.inr ex → ex.spawn.stdout_read = s.stdout_read) := by
  unfold stepStderr syncErrorExit
  rcases r with n | e <;>
    constructor <;> intro x h <;> split at h <;>
      first
        | (split at h <;> (try cases h) <;> simp_all)
        | ((try cases h) <;> simp_all)

/-- The self-pipe step never touches the stdout read counter of the
record it returns with. -/
theorem stepSigchld_stdout_read (s : SyncSpawn) (f : SyncFds) (rd : List Nat)
    (wr : Except Nat Nat) (w : Nat) :
    ∀ ex, stepSigchld s f rd wr w = some ex → ex.spawn.stdout_read = s.stdout_read := by
  unfold stepSigchld syncErrorExit
  rcases wr with e | status <;> intro ex h <;> split at h <;>
    (try cases h) <;> simp_all [decodeStatus_stdout_read]

/-- The self-pipe step never touches the stderr read counter of the
record it returns with. -/
theorem stepSigchld_stderr_read (s : SyncSpawn) (f : SyncFds) (rd : List Nat)
    (wr : Except Nat Nat) (w : Nat) :
    ∀ ex, stepSigchld s f rd wr w = some ex → ex.spawn.stderr_read = s.stderr_read := by
  unfold stepSigchld syncErrorExit
  rcases wr with e | status <;> intro ex h <;> split at h <;>
    (try cases h) <;> simp_all [decodeStatus_stderr_read]

/-- When its `read(2)` does not fail, the stdout capture step either
continues (leaving the stderr bookkeeping and the held endpoints
unchanged) or exits with the artificial buffer-overflow error. -/
theorem stepStdout_no_fail (s : SyncSpawn) (f : SyncFds) (rd : List Nat)
    (r : ReadR) (w : Nat) (hnf : ∀ e, r ≠ .failErr e) :
    (∃ s2, stepStdout s f rd r w = .inl s2 ∧ s2.stderr_buf = s.stderr_buf ∧
       s2.stderr_size = s.stderr_size ∧ s2.stderr_read = s.stderr_read ∧
       heldFds s2 f = heldFds s f) ∨
    stepStdout s f rd r w = .inr (syncErrorExit s f none (some UV_ENOBUFS) w) := by
  unfold stepStdout
  split
  · split
    · right; rfl
    · match r with
      | .ok n => exact Or.inl ⟨_, rfl, rfl, rfl, rfl, rfl⟩
      | .failErr e => exact absurd rfl (hnf e)
  · exact Or.inl ⟨s, rfl, rfl, rfl, rfl, rfl⟩

/-- When the stdout capture step is inactive, or has room and a
successful read, it continues, leaving the stderr bookkeeping and the
held endpoints unchanged. -/
theorem stepStdout_continues (s : SyncSpawn) (f : SyncFds) (rd : List Nat)
    (r : ReadR) (w : Nat)
    (hcont : ¬(s.stdout_buf = true ∧ f.stdout_r ∈ rd) ∨
             (0 < s.stdout_size - s.stdout_read ∧ ∃ k, r = .ok k)) :
    ∃ s2, stepStdout s f rd r w = .inl s2 ∧ s2.stderr_buf = s.stderr_buf ∧
      s2.stderr_size = s.stderr_size ∧ s2.stderr_read = s.stderr_read ∧
      heldFds s2 f = heldFds s f := by
  unfold stepStdout
  split
  · rcases hcont with hng | ⟨hroom, k, rfl⟩
    · exact absurd (by assumption) hng
    · rw [if_neg (not_le.mpr hroom)]
      exact ⟨_, rfl, rfl, rfl, rfl, rfl⟩
  · exact ⟨s, rfl, rfl, rfl, rfl, rfl⟩

/-- C7.  In an iteration whose ready read set contains a capture pipe
end — stdout or stderr — while the earlier steps of the same pass do
not abort for their own reasons: if that capture buffer is already
full, the pass exits the call with the artificial buffer-overflow
error `UV_ENOBUFS` — no OS errno — kills the child with SIGKILL and
closes every held descriptor; and if room remains, the single
`read(2)` on that pipe is bounded by the remaining capacity, so its
cursor advances by exactly the bytes read and never passes the
capacity.  (For the stderr half, a full stdout buffer in the same pass
is fine: the pass then aborts at the stdout check with the same
artificial overflow error.) -/
theorem C7_overflow_aborts_with_enobufs (s : SyncSpawn) (f : SyncFds)
    (o : IterOracle) (rd wr : List Nat) (n m : Nat)
    (hsel : o.sel = .ready rd wr)
    (hsafe : ∀ e, o.stdinW = .failErr e → e = EINTR) :
    (s.stdout_buf = true → f.stdout_r ∈ rd →
      s.stdout_size - s.stdout_read ≤ 0 →
      ∃ ex, iterate s f o = .stop ex ∧ ex.retval = -1 ∧
        ex.artErr = some UV_ENOBUFS ∧ ex.osErr = none ∧
        ex.killed = some SIGKILL ∧ ex.closed = heldFds s f) ∧
    (s.stdout_buf = true → f.stdout_r ∈ rd →
      0 < s.stdout_size - s.stdout_read → o.stdoutR = .ok n →
      (n : Int) ≤ s.stdout_size - s.stdout_read →
      readCursor (iterate s f o) = s.stdout_read + (n : Int) ∧
      readCursor (iterate s f o) ≤ s.stdout_size) ∧
    ((∀ e, o.stdoutR ≠ .failErr e) → s.stderr_buf = true → f.stderr_r ∈ rd →
      s.stderr_size - s.stderr_read ≤ 0 →
      ∃ ex, iterate s f o = .stop ex ∧ ex.retval = -1 ∧
        ex.artErr = some UV_ENOBUFS ∧ ex.osErr = none ∧
        ex.killed = some SIGKILL ∧ ex.closed = heldFds s f) ∧
    ((¬(s.stdout_buf = true ∧ f.stdout_r ∈ rd) ∨
        (0 < s.stdout_size - s.stdout_read ∧ ∃ k, o.stdoutR = .ok k)) →
      s.stderr_buf = true → f.stderr_r ∈ rd →
      0 < s.stderr_size - s.stderr_read → o.stderrR = .ok m →
      (m : Int) ≤ s.stderr_size - s.stderr_read →
      errCursor (iterate s f o) = s.stderr_read + (m : Int) ∧
      errCursor (iterate s f o) ≤ s.stderr_size) := by
  obtain ⟨s1, w1, hst, hb1, hsz1, hrd1, heb1, hesz1, herd1, hheld1⟩ :=
    stepStdin_total s f wr o.stdinW hsafe
  refine ⟨?_, ?_, ?_, ?_⟩
  · intro hbuf hrdy hfull
    have h2 : stepStdout s1 f rd o.stdoutR w1 =
        .inr (syncErrorExit s1 f none (some UV_ENOBUFS) w1) := by
      unfold stepStdout
      rw [hb1, hsz1, hrd1]
      simp [hbuf, hrdy, hfull]
    refine ⟨syncErrorExit s1 f none (some UV_ENOBUFS) w1, ?_, rfl, rfl, rfl, rfl, ?_⟩
    · simp [iterate, hsel, hst, h2]
    · simp [syncErrorExit, hheld1]
  · intro hbuf hrdy hroom hok hle
    have h2 : stepStdout s1 f rd o.stdoutR w1 =
        .inl { s1 with stdout_read := s1.stdout_read + (n : Int) } := by
      unfold stepStdout
      rw [hok, hb1, hsz1, hrd1]
      simp [hbuf, hrdy, not_le.mpr hroom]
    have hcur : readCursor (iterate s f o) = s.stdout_read + (n : Int) := by
      rcases h3 : stepStderr { s1 with stdout_read := s1.stdout_read + (n : Int) } f
          rd o.stderrR w1 with s3 | ex
      · have hs3 : s3.stdout_read = s1.stdout_read + (n : Int) := by
          have := (stepStderr_stdout_read _ f rd o.stderrR w1).1 s3 h3
          simpa using this
        rcases h4 : stepSigchld s3 f rd o.waitR w1 with _ | ex
        · have hit : iterate s f o = .next s3 w1 := by
            simp [iterate, hsel, hst, h2, h3, h4]
          rw [hit]
          simp [readCursor, hs3, hrd1]
        · have hex : ex.spawn.stdout_read = s3.stdout_read :=
            stepSigchld_stdout_read s3 f rd o.waitR w1 ex h4
          have hit : iterate s f o = .stop ex := by
            simp [iterate, hsel, hst, h2, h3, h4]
          rw [hit]
          simp [readCursor, hex, hs3, hrd1]
      · have hex : ex.spawn.stdout_read = s1.stdout_read + (n : Int) := by
          have := (stepStderr_stdout_read _ f rd o.stderrR w1).2 ex h3
          simpa using this
        have hit : iterate s f o = .stop ex := by
          simp [iterate, hsel, hst, h2, h3]
        rw [hit]
        simp [readCursor, hex, hrd1]
    refine ⟨hcur, ?_⟩
    rw [hcur]
    omega
  · intro hnf hbuf hrdy hfull
    rcases stepStdout_no_fail s1 f rd o.stdoutR w1 hnf with
      ⟨s2, h2, heb2, hesz2, herd2, hheld2⟩ | h2
    · have h3 : stepStderr s2 f rd o.stderrR w1 =
          .inr (syncErrorExit s2 f none (some UV_ENOBUFS) w1) := by
        unfold stepStderr
        rw [heb2, heb1, hesz2, hesz1, herd2, herd1]
        simp [hbuf, hrdy, hfull]
      refine ⟨syncErrorExit s2 f none (some UV_ENOBUFS) w1, ?_, rfl, rfl, rfl, rfl, ?_⟩
      · simp [iterate, hsel, hst, h2, h3]
      · simp [syncErrorExit, hheld2, hheld1]
    · refine ⟨syncErrorExit s1 f none (some UV_ENOBUFS) w1, ?_, rfl, rfl, rfl, rfl, ?_⟩
      · simp [iterate, hsel, hst, h2]
      · simp [syncErrorExit, hheld1]
  · intro hcont hbuf hrdy hroom hok hle
    have hcont1 : ¬(s1.stdout_buf = true ∧ f.stdout_r ∈ rd) ∨
        (0 < s1.stdout_size - s1.stdout_read ∧ ∃ k, o.stdoutR = .ok k) := by
      rw [hb1, hsz1, hrd1]
      exact hcont
    obtain ⟨s2, h2, heb2, hesz2, herd2, hheld2⟩ :=
      stepStdout_continues s1 f rd o.stdoutR w1 hcont1
    have hval : s2.stderr_read = s.stderr_read := herd2.trans herd1
    have hg1 : s2.stderr_buf = true := by rw [heb2, heb1]; exact hbuf
    have hg2 : ¬ (s2.stderr_size - s2.stderr_read ≤ 0) := by
      rw [hesz2, hesz1, herd2, herd1]
      omega
    have h3 : stepStderr s2 f rd o.stderrR w1 =
        .inl { s2 with stderr_read := s2.stderr_read + (m : Int) } := by
      unfold stepStderr
      rw [hok, if_pos ⟨hg1, hrdy⟩, if_neg hg2]
    rcases h4 : stepSigchld { s2 with stderr_read := s2.stderr_read + (m : Int) } f
        rd o.waitR w1 with _ | ex
    · have hit : iterate s f o =
          .next { s2 with stderr_read := s2.stderr_read + (m : Int) } w1 := by
        simp [iterate, hsel, hst, h2, h3, h4]
      rw [hit]
      constructor
      · simp [errCursor, hval]
      · simp [errCursor, hval]
        omega
    · have hex := stepSigchld_stderr_read _ f rd o.waitR w1 ex h4
      have hit : iterate s f o = .stop ex := by
        simp [iterate, hsel, hst, h2, h3, h4]
      rw [hit]
      have hxx : ex.spawn.stderr_read = s.stderr_read + (m : Int) := by
        rw [hex]
        simp [hval]
      constructor
      · simp [errCursor, hxx]
      · simp [errCursor, hxx]
        omega

/-- `sampleSpawn` with its 16-byte stdout capture buffer already
full. -/
def c7Spawn : SyncSpawn := { sampleSpawn with stdout_read := 16 }

/-- Ready read set reporting the full stdout capture end readable. -/
def c7Oracle : IterOracle :=
  { sel := .ready [5] [], stdinW := .ok 0, stdoutR := .ok 3,
    stderrR := .ok 0, waitR := .ok 0 }

/-- `sampleSpawn` with a stderr capture added whose 4-byte buffer is
already full. -/
def c7bSpawn : SyncSpawn :=
  { sampleSpawn with stderr_buf := true, stderr_read := 4 }

/-- Ready read set reporting the full stderr capture end readable (and
the stdout end quiet). -/
def c7bOracle : IterOracle :=
  { sel := .ready [6] [], stdinW := .ok 0, stdoutR := .ok 0,
    stderrR := .ok 1, waitR := .ok 0 }

/-- C7, witness: the overflow abort of the stdout capture at `c7Spawn`
and of the stderr capture at `c7bSpawn`. -/
theorem C7_overflow_aborts_with_enobufs_witness :
    (∃ ex, iterate c7Spawn sampleFds c7Oracle = .stop ex ∧ ex.retval = -1 ∧
      ex.artErr = some UV_ENOBUFS ∧ ex.osErr = none ∧
      ex.killed = some SIGKILL ∧ ex.closed = heldFds c7Spawn sampleFds) ∧
    (∃ ex, iterate c7bSpawn sampleFds c7bOracle = .stop ex ∧ ex.retval = -1 ∧
      ex.artErr = some UV_ENOBUFS ∧ ex.osErr = none ∧
      ex.killed = some SIGKILL ∧ ex.closed = heldFds c7bSpawn sampleFds) :=
  ⟨(C7_overflow_aborts_with_enobufs c7Spawn sampleFds c7Oracle [5] [] 0 0 rfl
      (fun e h => WriteR.noConfusion h)).1 (by decide) (by decide) (by decide),
   (C7_overflow_aborts_with_enobufs c7bSpawn sampleFds c7bOracle [6] [] 0 1 rfl
      (fun e h => WriteR.noConfusion h)).2.2.1
      (fun e h => ReadR.noConfusion h) (by decide) (by decide) (by decide)⟩

/-- The parent poll loop issues one `poll(2)` call plus one per
interrupted attempt. -/
theorem pollHupAttempts_eq (n : Nat) : pollHupAttempts n = n + 1 := by
  induction n with
  | zero => rfl
  | succ n ih => simp [pollHupAttempts, ih]

/-- C8.  On every successful `uv_spawn` (valid bindings, all OS calls
succeeding), the parent trace contains — in this order — the close of
the synchronization pipe write end, the completed wait for end-of-stream
on its read end (after `pollRetries + 1` poll calls, i.e. retrying each
interrupted wait), the recording of the process identifier into the
handle, and the registration of the child watcher; the last three
events each occur exactly once, so the order is never reversed. -/
theorem C8_pid_recorded_after_exec_wait (env : SpawnEnv) (opts : SpawnOpts)
    (hp : ∀ k, env.pipeOk k = true) (hf : env.forkOk = true)
    (h1 : opts.stdin_stream = none ∨ opts.stdin_stream = some .namedPipe)
    (h2 : opts.stdout_stream = none ∨ opts.stdout_stream = some .namedPipe)
    (h3 : opts.stderr_stream = none ∨ opts.stderr_stream = some .namedPipe) :
    (uv_spawn env opts).retval = 0 ∧
    [Ev.closedFd (signalWriteFd opts),
     Ev.pollHupDone (env.pollRetries + 1),
     Ev.recordedPid, Ev.registeredChildWatcher].Sublist (uv_spawn env opts).st.trace ∧
    (uv_spawn env opts).st.trace.count (Ev.pollHupDone (env.pollRetries + 1)) = 1 ∧
    (uv_spawn env opts).st.trace.count Ev.recordedPid = 1 ∧
    (uv_spawn env opts).st.trace.count Ev.registeredChildWatcher = 1 := by
  obtain ⟨s1, s2, s3⟩ := opts
  have h0 := hp 0
  have hA := hp 1
  have hB := hp 2
  have hC := hp 3
  rcases h1 with rfl | rfl <;> rcases h2 with rfl | rfl <;> rcases h3 with rfl | rfl <;>
    (refine ⟨?_, ?_, ?_, ?_, ?_⟩ <;>
      simp_all [uv_spawn, stdioStep, doPipe, initSpawnSt, closeFd, spawnError,
        closePair, pollHupAttempts_eq, signalWriteFd, numStdioPipes,
        List.count_cons, List.count_nil]) <;>
    (repeat first | apply List.Sublist.cons₂ | apply List.Sublist.cons) <;>
    exact List.nil_sublist []

/-- An async request binding all three stdio streams to pipes. -/
def c8Opts : SpawnOpts :=
  { stdin_stream := some .namedPipe, stdout_stream := some .namedPipe,
    stderr_stream := some .namedPipe }

/-- C8, witness: the ordered trace on an all-pipes request with every
OS call succeeding. -/
theorem C8_pid_recorded_after_exec_wait_witness :
    (uv_spawn okSpawnEnv c8Opts).retval = 0 ∧
    [Ev.closedFd (signalWriteFd c8Opts),
     Ev.pollHupDone (okSpawnEnv.pollRetries + 1),
     Ev.recordedPid, Ev.registeredChildWatcher].Sublist
       (uv_spawn okSpawnEnv c8Opts).st.trace ∧
    (uv_spawn okSpawnEnv c8Opts).st.trace.count
      (Ev.pollHupDone (okSpawnEnv.pollRetries + 1)) = 1 ∧
    (uv_spawn okSpawnEnv c8Opts).st.trace.count Ev.recordedPid = 1 ∧
    (uv_spawn okSpawnEnv c8Opts).st.trace.count Ev.registeredChildWatcher = 1 :=
  C8_pid_recorded_after_exec_wait okSpawnEnv c8Opts (fun _ => rfl) rfl
    (Or.inr rfl) (Or.inr rfl) (Or.inr rfl)

/-- C9.  `uv_process_kill` fails, returning `-1` with the errno of the
underlying `kill(2)` recorded, exactly when that call fails — in
particular delivery to an already-exited process identifier, for which
the OS reports ESRCH — and returns `0` recording nothing when it
succeeds; it does nothing else in either case. -/
theorem C9_kill_surfaces_errno (os : KillOracle) (pid signum : Int) :
    (∀ e, os pid signum = some e →
      uv_process_kill os pid signum = { retval := -1, err := some e }) ∧
    (os pid signum = none →
      uv_process_kill os pid signum = { retval := 0, err := none }) := by
  constructor
  · intro e h
    simp [uv_process_kill, h]
  · intro h
    simp [uv_process_kill, h]

/-- An OS in which only process 42 is alive: `kill(2)` on any other
identifier fails with ESRCH. -/
def c9Oracle : KillOracle := fun p _ => if p = 42 then none else some ESRCH

/-- C9, witness: delivery to the exited identifier 7 fails surfacing
ESRCH; delivery to the live identifier 42 succeeds. -/
theorem C9_kill_surfaces_errno_witness :
    uv_process_kill c9Oracle 7 15 = { retval := -1, err := some ESRCH } ∧
    uv_process_kill c9Oracle 42 15 = { retval := 0, err := none } :=
  ⟨(C9_kill_surfaces_errno c9Oracle 7 15).1 ESRCH (by decide),
   (C9_kill_surfaces_errno c9Oracle 42 15).2 (by decide)⟩

/-- C10.  With the combine flag set but no stdout capture buffer, the
child leaves stderr (and stdout) untouched — the combine `dup2` sits
inside the `if (spawn->stdout_buf)` branch — and no error is reported:
under an all-success OS the prologue of `uv_spawn_sync` reaches the
multiplexing loop for every flag combination, since there is no
parent-side validation at all; the mutual exclusion of combine with a
separate stderr buffer exists solely as the child-side assertion, which
fires exactly when stdout capture, combine and a stderr buffer are all
present. -/
theorem C10_combine_inert_without_stdout (s : SyncSpawn) (env : SyncEnv)
    (hok : ∀ k, env.pipeOk k = true) (hf : env.forkOk = true)
    (hsig : env.sigactionOk = true)
    (hc : s.combine = true) (hno : s.stdout_buf = false)
    (hne : s.stderr_buf = false) :
    (syncChildSetup s).fd2 = .inherited ∧
    (syncChildSetup s).fd1 = .inherited ∧
    (∀ s' : SyncSpawn, (uv_spawn_sync_prologue env s').isLoopEntry = true) ∧
    (∀ s' : SyncSpawn, (syncChildSetup s').assertFailed = true ↔
      (s'.stdout_buf = true ∧ s'.combine = true ∧ s'.stderr_buf = true)) := by
  refine ⟨?_, ?_, ?_, ?_⟩
  · simp only [syncChildSetup, hc, hno, hne]
    simp only [if_false, Bool.false_eq_true]
    split <;> rfl
  · simp only [syncChildSetup, hc, hno, hne]
    simp only [if_false, Bool.false_eq_true]
    split <;> rfl
  · intro s'
    have h0 := hok 0
    have h1 := hok 1
    have h2 := hok 2
    have h3 := hok 3
    by_cases b1 : s'.stdin_buf <;> by_cases b2 : s'.stdout_buf <;>
      by_cases b3 : s'.stderr_buf <;>
      simp [uv_spawn_sync_prologue, optPipe, doPipe, SyncEnv.pipeEnv, syncInit,
        initSpawnSt, closeFd, SyncProlog.isLoopEntry, b1, b2, b3, h0, h1, h2, h3,
        hf, hsig]
  · intro s'
    by_cases b1 : s'.stdout_buf <;> by_cases b2 : s'.combine <;>
      by_cases b3 : s'.stderr_buf <;>
      simp [syncChildSetup, b1, b2, b3] <;>
      (try (split <;> rfl))

/-- A sync request with the combine flag set but neither a stdout nor a
stderr capture buffer. -/
def c10Spawn : SyncSpawn :=
  { sampleSpawn with combine := true, stdout_buf := false, stderr_buf := false }

/-- C10, witness: the inert combine flag at `c10Spawn` under an
all-success OS. -/
theorem C10_combine_inert_without_stdout_witness :
    (syncChildSetup c10Spawn).fd2 = .inherited ∧
    (syncChildSetup c10Spawn).fd1 = .inherited ∧
    (uv_spawn_sync_prologue okSyncEnv c10Spawn).isLoopEntry = true ∧
    ((syncChildSetup c10Spawn).assertFailed = true ↔
      (c10Spawn.stdout_buf = true ∧ c10Spawn.combine = true ∧
       c10Spawn.stderr_buf = true)) :=
  ⟨(C10_combine_inert_without_stdout c10Spawn okSyncEnv (fun _ => rfl) rfl rfl
      rfl rfl rfl).1,
   (C10_combine_inert_without_stdout c10Spawn okSyncEnv (fun _ => rfl) rfl rfl
      rfl rfl rfl).2.1,
   (C10_combine_inert_without_stdout c10Spawn okSyncEnv (fun _ => rfl) rfl rfl
      rfl rfl rfl).2.2.1 c10Spawn,
   (C10_combine_inert_without_stdout c10Spawn okSyncEnv (fun _ => rfl) rfl rfl
      rfl rfl rfl).2.2.2 c10Spawn⟩

end Process
